import Mathlib

/-!
Shallow embedding of `src/static/src/datetime_picker.js`: the patched
`onPropsUpdated` of a `DateTimePicker`, together with models of the helpers it
imports from the hosting framework (which are not part of this repository's
sources), modelled from the specification where noted.
-/

/-- Model of a luxon `DateTime` instant: a day number and a millisecond offset
within that day.  Ordering is by the combined millisecond timestamp, matching
JavaScript `<` on `DateTime` objects (which compares `valueOf()`). -/
structure DT where
  day : Int
  ms : Nat
deriving DecidableEq

def msPerDay : Nat := 86400000

def toMillis (d : DT) : Int := d.day * (msPerDay : Int) + (d.ms : Int)

/-- JavaScript `<` between two `DateTime`s (comparison of millisecond values). -/
def dtLt (a b : DT) : Bool := toMillis a < toMillis b

def DT.hour (d : DT) : Nat := d.ms / 3600000 % 24

def DT.minute (d : DT) : Nat := d.ms / 60000 % 60

def DT.second (d : DT) : Nat := d.ms / 1000 % 60

/-- luxon `startOf("day")`. -/
def startOfDay (d : DT) : DT := ⟨d.day, 0⟩

/-- luxon `endOf("day")` (23:59:59.999 of the same day). -/
def endOfDay (d : DT) : DT := ⟨d.day, msPerDay - 1⟩

/-- Modelled from the spec: `MIN_VALID_DATE` imported from the framework's
date helpers (not in this repository's sources) — the global minimum
representable date. -/
def MIN_VALID_DATE : DT := ⟨-719162, 0⟩

/-- Modelled from the spec: `MAX_VALID_DATE` imported from the framework's
date helpers (not in this repository's sources) — the global maximum
representable date. -/
def MAX_VALID_DATE : DT := ⟨2932896, 86399999⟩

/-- Modelled from the spec: `today()` imported from the framework's date
helpers (not in this repository's sources); the spec's scenario fixes it to
the start of day of the current moment. -/
def todayOf (now : DT) : DT := startOfDay now

/-- Modelled from the spec: `clampDate` imported from the framework's date
helpers (not in this repository's sources); clamps a date into the given
range. -/
def clampDate (d lo hi : DT) : DT :=
  if dtLt d lo then lo else if dtLt hi d then hi else d

/-- A raw incoming value slot: a luxon `DateTime` together with its `isValid`
flag. -/
structure RawDT where
  d : DT
  isValid : Bool
deriving DecidableEq

/-- The `value` prop: a single nullable point, or a pair forming a range. -/
inductive PropValue where
  | single (v : Option RawDT)
  | pair (a b : Option RawDT)
deriving DecidableEq

/-- Modelled from the spec: `ensureArray` imported from the framework's array
utils (not in this repository's sources): wraps a non-array value in a
one-element array and keeps an array as is. -/
def ensureArray : PropValue → List (Option RawDT)
  | .single v => [v]
  | .pair a b => [a, b]

/-- Lines 144-146: `value && !value.isValid ? null : value`. -/
def normalizeSlot : Option RawDT → Option DT
  | none => none
  | some r => if r.isValid then some r.d else none

/-- A `minDate`/`maxDate` prop: the `"today"` sentinel, absent, or an explicit
date. -/
inductive DateLimit where
  | today
  | absent
  | explicit (d : DT)
deriving DecidableEq

inductive Precision where
  | days
  | months
  | years
  | decades
deriving DecidableEq

inductive WidgetType where
  | date
  | datetime
deriving DecidableEq

structure Props where
  value : PropValue
  range : Bool
  minDate : DateLimit
  maxDate : DateLimit
  minPrecision : Precision
  maxPrecision : Precision
  rounding : Nat
  type : WidgetType
  focusedDateIndex : Nat
deriving DecidableEq

/-- External environment read by `onPropsUpdated`: `this.env.isSmall` and the
locale's 12-hour-clock preference consumed by `handle12HourSystem`. -/
structure Env where
  isSmall : Bool
  uses12Hour : Bool
deriving DecidableEq

/-- Line 115: `numberRange(min, max)`. -/
def numberRange (lo hi : Nat) : List Nat := (List.range (hi - lo)).map (· + lo)

/-- JavaScript `String.prototype.padStart(2, "0")`. -/
def padStart2 (s : String) : String :=
  if 2 ≤ s.length then s else String.mk (List.replicate (2 - s.length) '0') ++ s

/-- JavaScript `a || b` on non-negative numbers: `0` is falsy. -/
def jsOrNat (a b : Nat) : Nat := if a = 0 then b else a

/-- JavaScript `%` on non-negative numbers: division by zero yields NaN
(modelled as `none`). -/
def jsRemainder (a b : Nat) : Option Nat := if b = 0 then none else some (a % b)

/-- JavaScript truthiness of a numeric result: NaN and 0 are falsy. -/
def jsNumTruthy : Option Nat → Bool
  | none => false
  | some n => n != 0

/-- Line 135. -/
def HOURS : List (Nat × String) := (numberRange 0 24).map fun h => (h, toString h)

/-- Line 136: the label is `String(minute || 0).padStart(2, "0")`. -/
def MINUTES : List (Nat × String) :=
  (numberRange 0 60).map fun m => (m, padStart2 (toString (jsOrNat m 0)))

/-- Line 137: `[...MINUTES]`. -/
def SECONDS : List (Nat × String) := MINUTES

/-- Line 138. -/
def MERIDIEMS : List String := ["AM", "PM"]

/-- Line 148: `MINUTES.filter((minute) => !(minute[0] % props.rounding))`. -/
def availableMinutes (rounding : Nat) : List (Nat × String) :=
  MINUTES.filter fun p => ! jsNumTruthy (jsRemainder p.1 rounding)

/-- Line 149: `props.rounding ? [] : SECONDS`. -/
def availableSeconds (rounding : Nat) : List (Nat × String) :=
  if rounding = 0 then SECONDS else []

/-- Lines 121-122. -/
def parseLimitDate (now : DT) (value : DateLimit) (defaultValue : DT) : DT :=
  clampDate
    (match value with
      | .today => todayOf now
      | .absent => defaultValue
      | .explicit d => d)
    MIN_VALID_DATE MAX_VALID_DATE

/-- Lines 156 and 158-160.  The source's widening condition reads
`this.props.type`; the embedding identifies the component's current props with
the incoming ones, the spec's one-configuration-per-call model. -/
def effectiveMaxDate (now : DT) (props : Props) : DT :=
  if props.type = WidgetType.date then
    endOfDay (parseLimitDate now props.maxDate MAX_VALID_DATE)
  else
    parseLimitDate now props.maxDate MAX_VALID_DATE

/-- Lines 157 and 158-161, as for `effectiveMaxDate`. -/
def effectiveMinDate (now : DT) (props : Props) : DT :=
  if props.type = WidgetType.date then
    startOfDay (parseLimitDate now props.minDate MIN_VALID_DATE)
  else
    parseLimitDate now props.minDate MIN_VALID_DATE

def precIdx : Precision → Nat
  | .days => 0
  | .months => 1
  | .years => 2
  | .decades => 3

def precisionOrder : List Precision := [.days, .months, .years, .decades]

/-- Modelled from the spec: `filterPrecisionLevels` of the base
`DateTimePicker` (not in this repository's sources): the contiguous slice of
the canonical order from `minPrecision` through `maxPrecision` inclusive. -/
def filterPrecisionLevels (minP maxP : Precision) : List Precision :=
  (precisionOrder.drop (precIdx minP)).take (precIdx maxP + 1 - precIdx minP)

/-- First slot index at or after `idx` holding a value. -/
def firstSlotAtOrAfter : List (Option DT) → Nat → Option Nat
  | [], _ => none
  | v :: rest, 0 => if v.isSome then some 0 else (firstSlotAtOrAfter rest 0).map (· + 1)
  | _ :: rest, i + 1 => (firstSlotAtOrAfter rest i).map (· + 1)

/-- Modelled from the spec: the focus-index policy of `adjustFocus` of the base
`DateTimePicker` (not in this repository's sources): the earliest non-empty
slot at or after the requested index, or the requested index when no slot
holds a value. -/
def adjustFocusIndex (values : List (Option DT)) (idx : Nat) : Nat :=
  (firstSlotAtOrAfter values idx).getD idx

inductive PickerError where
  | configurationError
  | typeError
deriving DecidableEq

/-- The successive operations of `onPropsUpdated`, in execution order, for
reasoning about ordering. -/
inductive Step where
  | normalizeValues
  | availability
  | precision
  | limits
  | boundsCheck
  | deriveTime
  | slotSelect
  | adjustFocus
  | meridiem
  | stringify
deriving DecidableEq, BEq

structure PickerState where
  values : List (Option DT)
  availableHours : List (Nat × String)
  availableMinutes : List (Nat × String)
  availableSeconds : List (Nat × String)
  allowedPrecisionLevels : List Precision
  additionalMonth : Bool
  maxDate : DT
  minDate : DT
  timeValues : List (Option (String × String × String))
  focusedDateIndex : Nat
  shouldAdjustFocusDate : Bool
  meridiem12 : Bool
deriving DecidableEq

structure SyncResult where
  state : PickerState
  error : Option PickerError
  trace : List Step
deriving DecidableEq

/-- Lines 168-172.  `val.minute` is read without the `val || DateTime.local()`
guard used for the hour, so a `null` slot raises a TypeError (`none`).  For a
present slot, `val.minute || DateTime.local().minute` substitutes the current
minute whenever the slot's own minute is 0 (JavaScript `||` on numbers), and
likewise for seconds. -/
def deriveTimeValues (now : DT) : List (Option DT) → Option (List (Nat × Nat × Nat))
  | [] => some []
  | none :: _ => none
  | some v :: rest =>
    (deriveTimeValues now rest).map
      (fun ts => (v.hour, jsOrNat v.minute now.minute, jsOrNat v.second now.second) :: ts)

/-- Line 185: `timeValue.map(String)`. -/
def strTriple (t : Nat × Nat × Nat) : String × String × String :=
  (toString t.1, toString t.2.1, toString t.2.2)

def baseTrace : List Step :=
  [Step.normalizeValues, Step.availability, Step.precision, Step.limits, Step.boundsCheck]

def fullTrace : List Step :=
  baseTrace ++ [Step.deriveTime, Step.slotSelect, Step.adjustFocus, Step.meridiem, Step.stringify]

/-- Lines 144-161: the state fields assigned before the bound check, in source
order. -/
def syncBase (env : Env) (now : DT) (props : Props) (st : PickerState) : PickerState :=
  { st with
    values := (ensureArray props.value).map normalizeSlot,
    availableHours := HOURS,
    availableMinutes := availableMinutes props.rounding,
    availableSeconds := availableSeconds props.rounding,
    allowedPrecisionLevels := filterPrecisionLevels props.minPrecision props.maxPrecision,
    additionalMonth := props.range && !env.isSmall,
    maxDate := effectiveMaxDate now props,
    minDate := effectiveMinDate now props }

/-- Lines 168-186: the part of `onPropsUpdated` after the bound check.  The
`console.log` at line 181 has no observable effect; `adjustFocus` (line 183)
and `handle12HourSystem` (line 184) are modelled from the spec as the
focus-index adjustment (single-value mode only, per `shouldAdjustFocusDate`)
and the meridiem flag; the numeric time values stored at lines 176/179 are
replaced slotwise by their decimal strings at line 185, so the embedding
stores the final strings directly, and the out-of-range single-mode slot whose
entry is `undefined` raises the line-185 TypeError. -/
def afterCheck (env : Env) (now : DT) (props : Props) (st1 : PickerState) : SyncResult :=
  match deriveTimeValues now st1.values with
  | none =>
    { state := st1, error := some PickerError.typeError, trace := baseTrace ++ [Step.deriveTime] }
  | some tvs =>
    if props.range then
      { state := { st1 with
          timeValues := tvs.map (fun t => some (strTriple t)),
          shouldAdjustFocusDate := false,
          focusedDateIndex := props.focusedDateIndex,
          meridiem12 := env.uses12Hour },
        error := none,
        trace := fullTrace }
    else
      match tvs[props.focusedDateIndex]? with
      | some t =>
        { state := { st1 with
            timeValues := List.replicate props.focusedDateIndex none ++ [some (strTriple t)],
            shouldAdjustFocusDate := true,
            focusedDateIndex := adjustFocusIndex st1.values props.focusedDateIndex,
            meridiem12 := env.uses12Hour },
          error := none,
          trace := fullTrace }
      | none =>
        { state := { st1 with
            timeValues := List.replicate (props.focusedDateIndex + 1) none,
            shouldAdjustFocusDate := true,
            focusedDateIndex := adjustFocusIndex st1.values props.focusedDateIndex,
            meridiem12 := env.uses12Hour },
          error := some PickerError.typeError,
          trace := fullTrace }

/-- Lines 142-186: the patched `onPropsUpdated`.  State fields are assigned in
source order; on the line-163 throw the fields already assigned keep their new
values and the remaining ones keep their prior values. -/
def onPropsUpdated (env : Env) (now : DT) (props : Props) (st : PickerState) : SyncResult :=
  if dtLt (effectiveMaxDate now props) (effectiveMinDate now props) then
    { state := syncBase env now props st,
      error := some PickerError.configurationError,
      trace := baseTrace }
  else
    afterCheck env now props (syncBase env now props st)

/-- A configuration whose value shape matches its range flag (pair iff range),
the well-formedness the spec's data model imposes on configurations. -/
def valueShapeMatches (props : Props) : Bool :=
  match props.value, props.range with
  | .pair _ _, true => true
  | .single _, false => true
  | _, _ => false

/-- An initial component state, prior to any synchronization. -/
def initState : PickerState :=
  { values := [],
    availableHours := [],
    availableMinutes := [],
    availableSeconds := [],
    allowedPrecisionLevels := [],
    additionalMonth := false,
    maxDate := MAX_VALID_DATE,
    minDate := MIN_VALID_DATE,
    timeValues := [],
    focusedDateIndex := 0,
    shouldAdjustFocusDate := false,
    meridiem12 := false }

def env0 : Env := { isSmall := false, uses12Hour := false }

/-- A fixed current instant: 7:37:00 on day 20000. -/
def now0 : DT := ⟨20000, 27420000⟩

/-- A range configuration whose first slot is empty and whose second slot holds a valid 10:20:30 point. -/
def cfg1 : Props :=
  { value := PropValue.pair none (some ⟨⟨19000, 37230000⟩, true⟩),
    range := true,
    minDate := DateLimit.absent,
    maxDate := DateLimit.absent,
    minPrecision := Precision.days,
    maxPrecision := Precision.decades,
    rounding := 5,
    type := WidgetType.datetime,
    focusedDateIndex := 0 }

/-- A single-value configuration holding a valid 12:30:00 point. -/
def cfg2 : Props :=
  { value := PropValue.single (some ⟨⟨19000, 45000000⟩, true⟩),
    range := false,
    minDate := DateLimit.absent,
    maxDate := DateLimit.absent,
    minPrecision := Precision.days,
    maxPrecision := Precision.decades,
    rounding := 5,
    type := WidgetType.datetime,
    focusedDateIndex := 0 }

/-- A configuration whose explicit `maxDate` (day 24000) is before its explicit `minDate` (day 25000). -/
def cfg5 : Props :=
  { value := PropValue.single (some ⟨⟨19000, 32430000⟩, true⟩),
    range := false,
    minDate := DateLimit.explicit ⟨25000, 0⟩,
    maxDate := DateLimit.explicit ⟨24000, 0⟩,
    minPrecision := Precision.days,
    maxPrecision := Precision.decades,
    rounding := 5,
    type := WidgetType.datetime,
    focusedDateIndex := 0 }

/-- A single-value configuration holding a valid 9:00:30 point (minute 0). -/
def cfg6 : Props :=
  { value := PropValue.single (some ⟨⟨19000, 32430000⟩, true⟩),
    range := false,
    minDate := DateLimit.absent,
    maxDate := DateLimit.absent,
    minPrecision := Precision.days,
    maxPrecision := Precision.decades,
    rounding := 5,
    type := WidgetType.datetime,
    focusedDateIndex := 0 }

/-- A date-only configuration with explicit in-range bounds. -/
def cfg7d : Props :=
  { value := PropValue.single (some ⟨⟨19000, 32430000⟩, true⟩),
    range := false,
    minDate := DateLimit.explicit ⟨18000, 7200000⟩,
    maxDate := DateLimit.explicit ⟨21000, 7200000⟩,
    minPrecision := Precision.days,
    maxPrecision := Precision.decades,
    rounding := 5,
    type := WidgetType.date,
    focusedDateIndex := 0 }

/-- The same configuration as a date+time widget. -/
def cfg7t : Props :=
  { cfg7d with type := WidgetType.datetime }

/-- The scenario configuration: `minDate = "today"`, `maxDate` absent, `range = false`, `value = null`, `rounding = 5`. -/
def cfg8 : Props :=
  { value := PropValue.single none,
    range := false,
    minDate := DateLimit.today,
    maxDate := DateLimit.absent,
    minPrecision := Precision.days,
    maxPrecision := Precision.decades,
    rounding := 5,
    type := WidgetType.datetime,
    focusedDateIndex := 0 }

/-- A range configuration holding two valid points. -/
def cfg9 : Props :=
  { value := PropValue.pair (some ⟨⟨19000, 32430000⟩, true⟩) (some ⟨⟨19001, 37230000⟩, true⟩),
    range := true,
    minDate := DateLimit.absent,
    maxDate := DateLimit.absent,
    minPrecision := Precision.days,
    maxPrecision := Precision.decades,
    rounding := 5,
    type := WidgetType.datetime,
    focusedDateIndex := 0 }

theorem afterCheck_error_ne_config (env : Env) (now : DT) (props : Props) (st1 : PickerState) :
    (afterCheck env now props st1).error ≠ some PickerError.configurationError := by
  unfold afterCheck
  cases h : deriveTimeValues now st1.values with
  | none => simp
  | some tvs =>
    by_cases hr : props.range <;> simp [hr]
    cases h2 : tvs[props.focusedDateIndex]? <;> simp

theorem afterCheck_preserves (env : Env) (now : DT) (props : Props) (st1 : PickerState) :
    (afterCheck env now props st1).state.values = st1.values ∧
    (afterCheck env now props st1).state.availableHours = st1.availableHours ∧
    (afterCheck env now props st1).state.availableMinutes = st1.availableMinutes ∧
    (afterCheck env now props st1).state.availableSeconds = st1.availableSeconds ∧
    (afterCheck env now props st1).state.allowedPrecisionLevels = st1.allowedPrecisionLevels ∧
    (afterCheck env now props st1).state.minDate = st1.minDate ∧
    (afterCheck env now props st1).state.maxDate = st1.maxDate := by
  unfold afterCheck
  cases h : deriveTimeValues now st1.values with
  | none => simp
  | some tvs =>
    by_cases hr : props.range <;> simp [hr]
    cases h2 : tvs[props.focusedDateIndex]? <;> simp

theorem onPropsUpdated_base_fields (env : Env) (now : DT) (props : Props) (st : PickerState) :
    (onPropsUpdated env now props st).state.values = (ensureArray props.value).map normalizeSlot ∧
    (onPropsUpdated env now props st).state.availableHours = HOURS ∧
    (onPropsUpdated env now props st).state.availableMinutes = availableMinutes props.rounding ∧
    (onPropsUpdated env now props st).state.availableSeconds = availableSeconds props.rounding ∧
    (onPropsUpdated env now props st).state.allowedPrecisionLevels
        = filterPrecisionLevels props.minPrecision props.maxPrecision ∧
    (onPropsUpdated env now props st).state.minDate = effectiveMinDate now props ∧
    (onPropsUpdated env now props st).state.maxDate = effectiveMaxDate now props := by
  unfold onPropsUpdated
  split
  · simp [syncBase]
  · have h := afterCheck_preserves env now props (syncBase env now props st)
    simp [syncBase] at h
    simp [syncBase, h]

theorem map_fst_filter_fst (p : Nat → Bool) (f : Nat → String) :
    ∀ l : List Nat,
      (((l.map fun m => (m, f m)).filter fun q => p q.1).map Prod.fst) = l.filter p := by
  intro l
  induction l with
  | nil => rfl
  | cons a t ih =>
    by_cases h : p a <;> simp [List.filter_cons, h, ih]

theorem availableMinutes_pos (r : Nat) (hr : 0 < r) :
    (availableMinutes r).map Prod.fst = (List.range 60).filter (fun m => m % r == 0) := by
  have hne : r ≠ 0 := Nat.pos_iff_ne_zero.mp hr
  have hrange : numberRange 0 60 = List.range 60 := by decide
  simp only [availableMinutes, MINUTES, jsRemainder, jsNumTruthy, hne, if_false]
  rw [show (fun p : Nat × String => ! ((p.1 % r != 0) : Bool))
        = (fun p : Nat × String => (p.1 % r == 0)) from ?_]
  · have h := map_fst_filter_fst (fun m => m % r == 0)
      (fun m => padStart2 (toString (jsOrNat m 0))) (numberRange 0 60)
    rw [hrange] at h
    exact h
  · funext p
    cases h : (p.1 % r == 0) <;> simp [bne, h]

theorem deriveTimeValues_length (now : DT) :
    ∀ (vs : List (Option DT)) (ts : List (Nat × Nat × Nat)),
      deriveTimeValues now vs = some ts → ts.length = vs.length := by
  intro vs
  induction vs with
  | nil => intro ts h; simp [deriveTimeValues] at h; simp [h.symm]
  | cons a rest ih =>
    intro ts h
    cases a with
    | none => simp [deriveTimeValues] at h
    | some v =>
      simp only [deriveTimeValues, Option.map_eq_some'] at h
      obtain ⟨ts0, h0, rfl⟩ := h
      simp [ih ts0 h0]

theorem deriveTimeValues_all_some (now : DT) :
    ∀ (vs : List (Option DT)) (ts : List (Nat × Nat × Nat)),
      deriveTimeValues now vs = some ts →
      ∀ (j : Nat) (v0 : Option DT), vs[j]? = some v0 → v0.isSome = true := by
  intro vs
  induction vs with
  | nil => intro ts _ j v0 h; simp at h
  | cons a rest ih =>
    intro ts h j v0 hj
    cases a with
    | none => simp [deriveTimeValues] at h
    | some v =>
      simp only [deriveTimeValues, Option.map_eq_some'] at h
      obtain ⟨ts0, h0, rfl⟩ := h
      cases j with
      | zero => simp at hj; simp [hj.symm]
      | succ i => simp at hj; exact ih ts0 h0 i v0 hj

theorem firstSlot_at_idx :
    ∀ (vs : List (Option DT)) (idx : Nat) (v : DT),
      vs[idx]? = some (some v) → firstSlotAtOrAfter vs idx = some idx := by
  intro vs
  induction vs with
  | nil => intro idx v h; simp at h
  | cons a rest ih =>
    intro idx v h
    cases idx with
    | zero =>
      simp at h
      subst h
      simp [firstSlotAtOrAfter]
    | succ i =>
      simp at h
      simp [firstSlotAtOrAfter, ih i v h]

theorem getElem_replicate_append {α : Type} :
    ∀ (idx j : Nat) (x : α),
      (List.replicate idx (none : Option α) ++ [some x])[j]? =
        if j < idx then some none else if j = idx then some (some x) else none := by
  intro idx
  induction idx with
  | zero =>
    intro j x
    cases j with
    | zero => simp
    | succ i => simp
  | succ k ih =>
    intro j x
    cases j with
    | zero => simp [List.replicate]
    | succ i =>
      simp only [List.replicate, List.cons_append, List.getElem?_cons_succ, ih i x]
      by_cases h1 : i < k <;> by_cases h2 : i = k <;>
        simp [h1, h2, Nat.succ_lt_succ_iff]

theorem getElem_some_lt {α : Type} :
    ∀ (l : List α) (i : Nat) (a : α), l[i]? = some a → i < l.length := by
  intro l
  induction l with
  | nil => intro i a h; simp at h
  | cons x xs ih =>
    intro i a h
    cases i with
    | zero => simp
    | succ n =>
      simp only [List.getElem?_cons_succ] at h
      have := ih n a h
      simp
      omega

theorem onPropsUpdated_single_complete (env : Env) (now : DT) (props : Props) (st : PickerState)
    (hr : props.range = false)
    (hdone : (onPropsUpdated env now props st).error = none) :
    ∃ tvs t,
      deriveTimeValues now ((ensureArray props.value).map normalizeSlot) = some tvs ∧
      tvs[props.focusedDateIndex]? = some t ∧
      (onPropsUpdated env now props st).state.timeValues
        = List.replicate props.focusedDateIndex none ++ [some (strTriple t)] ∧
      (onPropsUpdated env now props st).trace = fullTrace ∧
      (onPropsUpdated env now props st).state.focusedDateIndex
        = adjustFocusIndex ((ensureArray props.value).map normalizeSlot) props.focusedDateIndex := by
  have hsv : (syncBase env now props st).values = (ensureArray props.value).map normalizeSlot := rfl
  by_cases hb : dtLt (effectiveMaxDate now props) (effectiveMinDate now props) = true
  · rw [onPropsUpdated, if_pos hb] at hdone
    simp at hdone
  · have hrne : ¬ props.range = true := by simp [hr]
    rw [onPropsUpdated, if_neg hb] at hdone ⊢
    rw [afterCheck, hsv] at hdone ⊢
    cases hd : deriveTimeValues now ((ensureArray props.value).map normalizeSlot) with
    | none =>
      rw [hd] at hdone
      simp at hdone
    | some tvs =>
      rw [hd] at hdone
      dsimp only [] at hdone ⊢
      rw [if_neg hrne] at hdone ⊢
      cases hg : tvs[props.focusedDateIndex]? with
      | none =>
        rw [hg] at hdone
        simp at hdone
      | some t => exact ⟨tvs, t, rfl, hg, rfl, rfl, rfl⟩

/-- C1: the claim says an empty (null) slot gets the current local
hour/minute/second substituted and synchronization still completes; with
`range = true` and `value = [null, validDate]` the code instead reads
`val.minute` on `null` (line 170) and raises a TypeError, and no time
components are produced for either slot. -/
theorem c1_null_slot_type_error :
    (onPropsUpdated env0 now0 cfg1 initState).state.values = [none, some ⟨19000, 37230000⟩] ∧
    (onPropsUpdated env0 now0 cfg1 initState).error = some PickerError.typeError ∧
    (onPropsUpdated env0 now0 cfg1 initState).state.timeValues = initState.timeValues ∧
    deriveTimeValues now0 [none, some ⟨19000, 37230000⟩] = none := by
  refine ⟨by decide, by decide, by decide, by decide⟩

/-- C2 (counterexample): at a concrete single-value configuration the executed
trace places the focus-index adjustment (line 183) after time-component slot
selection (lines 175-180), refuting the claimed ordering. -/
theorem c2_counterexample :
    (onPropsUpdated env0 now0 cfg2 initState).error = none ∧
    (onPropsUpdated env0 now0 cfg2 initState).trace
        = [Step.normalizeValues, Step.availability, Step.precision, Step.limits,
           Step.boundsCheck, Step.deriveTime, Step.slotSelect, Step.adjustFocus,
           Step.meridiem, Step.stringify] ∧
    ¬ ((onPropsUpdated env0 now0 cfg2 initState).trace.indexOf Step.adjustFocus
        < (onPropsUpdated env0 now0 cfg2 initState).trace.indexOf Step.slotSelect) := by
  refine ⟨by decide, by decide, by decide⟩

/-- C2 (amended): in single-value mode the focus-index adjustment runs after
time-component slot selection, which uses the requested `focusedDateIndex`
directly; on every completed synchronization the adjusted index coincides
with the requested one, so `timeValues` carries data only at that slot and
every other slot entry is cleared. -/
theorem c2_slot_selection (env : Env) (now : DT) (props : Props) (st : PickerState)
    (hr : props.range = false)
    (hdone : (onPropsUpdated env now props st).error = none) :
    (onPropsUpdated env now props st).trace.indexOf Step.slotSelect
        < (onPropsUpdated env now props st).trace.indexOf Step.adjustFocus ∧
    adjustFocusIndex ((ensureArray props.value).map normalizeSlot) props.focusedDateIndex
        = props.focusedDateIndex ∧
    (onPropsUpdated env now props st).state.focusedDateIndex = props.focusedDateIndex ∧
    (∀ j : Nat,
      (∃ t, (onPropsUpdated env now props st).state.timeValues[j]? = some (some t)) ↔
        j = props.focusedDateIndex) := by
  obtain ⟨tvs, t, hd, hg, htv, htr, hfi⟩ :=
    onPropsUpdated_single_complete env now props st hr hdone
  have hlen := deriveTimeValues_length now _ tvs hd
  have hlt : props.focusedDateIndex < tvs.length := getElem_some_lt tvs _ _ hg
  have hlt2 : props.focusedDateIndex < ((ensureArray props.value).map normalizeSlot).length := by
    rw [← hlen]; exact hlt
  have hv0 : ((ensureArray props.value).map normalizeSlot)[props.focusedDateIndex]?
      = some ((ensureArray props.value).map normalizeSlot)[props.focusedDateIndex] :=
    List.getElem?_eq_getElem hlt2
  have hs := deriveTimeValues_all_some now _ tvs hd _ _ hv0
  obtain ⟨v, hv⟩ := Option.isSome_iff_exists.mp hs
  have hsome : ((ensureArray props.value).map normalizeSlot)[props.focusedDateIndex]?
      = some (some v) := by rw [hv0, hv]
  have hadj : adjustFocusIndex ((ensureArray props.value).map normalizeSlot)
      props.focusedDateIndex = props.focusedDateIndex := by
    unfold adjustFocusIndex
    rw [firstSlot_at_idx _ _ v hsome]
    rfl
  refine ⟨?_, hadj, ?_, ?_⟩
  · rw [htr]; decide
  · rw [hfi, hadj]
  · intro j
    rw [htv, getElem_replicate_append]
    by_cases h1 : j < props.focusedDateIndex
    · simp [h1]
      omega
    · by_cases h2 : j = props.focusedDateIndex
      · simp [h1, h2]
      · simp [h1, h2]

theorem c2_slot_selection_witness :
    adjustFocusIndex ((ensureArray cfg2.value).map normalizeSlot) cfg2.focusedDateIndex
        = cfg2.focusedDateIndex ∧
    (∃ t, (onPropsUpdated env0 now0 cfg2 initState).state.timeValues[0]? = some (some t)) :=
  ⟨(c2_slot_selection env0 now0 cfg2 initState (by decide) (by decide)).2.1,
   ((c2_slot_selection env0 now0 cfg2 initState (by decide) (by decide)).2.2.2 0).mpr rfl⟩

/-- C3: available hours are exactly the integers 0-23; for `rounding > 0` the
available minutes are exactly the multiples of `rounding` within 0-59 (for
`rounding = 5` exactly 0,5,...,55; for `rounding = 1` nothing is filtered);
available seconds are empty for nonzero `rounding` and the full 0-59 set for
`rounding = 0`; every snapshot exposes exactly these lists. -/
theorem c3_available_choices (r : Nat) :
    HOURS.map Prod.fst = List.range 24 ∧
    (0 < r → (availableMinutes r).map Prod.fst = (List.range 60).filter (fun m => m % r == 0)) ∧
    (availableMinutes 5).map Prod.fst = [0, 5, 10, 15, 20, 25, 30, 35, 40, 45, 50, 55] ∧
    (availableMinutes 1).map Prod.fst = List.range 60 ∧
    (r ≠ 0 → availableSeconds r = []) ∧
    (availableSeconds 0).map Prod.fst = List.range 60 ∧
    (∀ env now props st,
      (onPropsUpdated env now props st).state.availableHours = HOURS ∧
      (onPropsUpdated env now props st).state.availableMinutes = availableMinutes props.rounding ∧
      (onPropsUpdated env now props st).state.availableSeconds = availableSeconds props.rounding) := by
  refine ⟨by decide, availableMinutes_pos r, by decide, by decide, ?_, by decide, ?_⟩
  · intro h
    simp [availableSeconds, h]
  · intro env now props st
    have h := onPropsUpdated_base_fields env now props st
    exact ⟨h.2.1, h.2.2.1, h.2.2.2.1⟩

theorem c3_available_choices_witness :
    (availableMinutes 5).map Prod.fst = (List.range 60).filter (fun m => m % 5 == 0) ∧
    availableSeconds 5 = [] := by
  exact ⟨(c3_available_choices 5).2.1 (by decide), (c3_available_choices 5).2.2.2.2.1 (by decide)⟩

/-- C4: synchronization reports the configuration error exactly when the
resolved `effectiveMaxDate` is before the resolved `effectiveMinDate` (after
sentinel/default substitution, clamping and date-only widening), and in that
case no snapshot is produced and the time components are never updated. -/
theorem c4_configuration_error (env : Env) (now : DT) (props : Props) (st : PickerState) :
    ((onPropsUpdated env now props st).error = some PickerError.configurationError ↔
      dtLt (effectiveMaxDate now props) (effectiveMinDate now props) = true) ∧
    (dtLt (effectiveMaxDate now props) (effectiveMinDate now props) = true →
      (onPropsUpdated env now props st).error ≠ none ∧
      (onPropsUpdated env now props st).state.timeValues = st.timeValues) := by
  by_cases hb : dtLt (effectiveMaxDate now props) (effectiveMinDate now props) = true
  · constructor
    · simp [onPropsUpdated, hb]
    · intro _
      constructor
      · simp [onPropsUpdated, hb]
      · simp [onPropsUpdated, hb, syncBase]
  · constructor
    · constructor
      · intro he
        rw [onPropsUpdated, if_neg hb] at he
        exact absurd he (afterCheck_error_ne_config env now props (syncBase env now props st))
      · intro hlt
        exact absurd hlt hb
    · intro hlt
      exact absurd hlt hb

theorem c4_configuration_error_witness :
    (onPropsUpdated env0 now0 cfg5 initState).error = some PickerError.configurationError ∧
    (onPropsUpdated env0 now0 cfg5 initState).state.timeValues = initState.timeValues :=
  ⟨(c4_configuration_error env0 now0 cfg5 initState).1.mpr (by decide),
   ((c4_configuration_error env0 now0 cfg5 initState).2 (by decide)).2⟩

/-- C5 (counterexample): on a configuration whose `maxDate` is before its
`minDate` the error propagates while the normalized values, the availability
lists, the precision levels and the effective bounds already hold updated
values, refuting the claim that no derived state field is updated when the
error propagates. -/
theorem c5_counterexample :
    (onPropsUpdated env0 now0 cfg5 initState).error = some PickerError.configurationError ∧
    (onPropsUpdated env0 now0 cfg5 initState).state.values ≠ initState.values ∧
    (onPropsUpdated env0 now0 cfg5 initState).state.minDate ≠ initState.minDate ∧
    (onPropsUpdated env0 now0 cfg5 initState).state.maxDate ≠ initState.maxDate ∧
    (onPropsUpdated env0 now0 cfg5 initState).state.availableMinutes ≠ initState.availableMinutes ∧
    (onPropsUpdated env0 now0 cfg5 initState).state.allowedPrecisionLevels
        ≠ initState.allowedPrecisionLevels := by
  refine ⟨by decide, by decide, by decide, by decide, by decide, by decide⟩

/-- C5 (amended): when the configuration error propagates, the fields
assigned before the bound check (normalized values, availability lists,
precision levels, effective bounds) already hold their updated values, while
the time components, the focus fields and the meridiem flag keep their prior
values. -/
theorem c5_fields_on_error (env : Env) (now : DT) (props : Props) (st : PickerState)
    (h : (onPropsUpdated env now props st).error = some PickerError.configurationError) :
    (onPropsUpdated env now props st).state.timeValues = st.timeValues ∧
    (onPropsUpdated env now props st).state.focusedDateIndex = st.focusedDateIndex ∧
    (onPropsUpdated env now props st).state.shouldAdjustFocusDate = st.shouldAdjustFocusDate ∧
    (onPropsUpdated env now props st).state.meridiem12 = st.meridiem12 ∧
    (onPropsUpdated env now props st).state.values = (ensureArray props.value).map normalizeSlot ∧
    (onPropsUpdated env now props st).state.availableHours = HOURS ∧
    (onPropsUpdated env now props st).state.availableMinutes = availableMinutes props.rounding ∧
    (onPropsUpdated env now props st).state.availableSeconds = availableSeconds props.rounding ∧
    (onPropsUpdated env now props st).state.allowedPrecisionLevels
        = filterPrecisionLevels props.minPrecision props.maxPrecision ∧
    (onPropsUpdated env now props st).state.minDate = effectiveMinDate now props ∧
    (onPropsUpdated env now props st).state.maxDate = effectiveMaxDate now props := by
  by_cases hb : dtLt (effectiveMaxDate now props) (effectiveMinDate now props) = true
  · simp [onPropsUpdated, hb, syncBase]
  · exfalso
    rw [onPropsUpdated, if_neg hb] at h
    exact afterCheck_error_ne_config env now props (syncBase env now props st) h

theorem c5_fields_on_error_witness :
    (onPropsUpdated env0 now0 cfg5 initState).state.timeValues = initState.timeValues ∧
    (onPropsUpdated env0 now0 cfg5 initState).state.maxDate = effectiveMaxDate now0 cfg5 :=
  ⟨(c5_fields_on_error env0 now0 cfg5 initState (by decide)).1,
   (c5_fields_on_error env0 now0 cfg5 initState (by decide)).2.2.2.2.2.2.2.2.2.2⟩

/-- C6: the claim says a valid point's own hour, minute and second are
extracted even when the minute or second is 0; for a valid 9:00:30 value and
current time 7:37:00 the code stores minute "37" (the current minute, via
`val.minute || DateTime.local().minute`), not the point's own "0". -/
theorem c6_zero_minute_substituted :
    DT.hour ⟨19000, 32430000⟩ = 9 ∧
    DT.minute ⟨19000, 32430000⟩ = 0 ∧
    DT.second ⟨19000, 32430000⟩ = 30 ∧
    DT.minute now0 = 37 ∧
    (onPropsUpdated env0 now0 cfg6 initState).error = none ∧
    (onPropsUpdated env0 now0 cfg6 initState).state.timeValues = [some ("9", "37", "30")] ∧
    (onPropsUpdated env0 now0 cfg6 initState).state.timeValues ≠ [some ("9", "0", "30")] := by
  refine ⟨by decide, by decide, by decide, by decide, by decide, by decide, by decide⟩

/-- C7: for a date-only widget the resolved maximum is widened to the end of
its day and the minimum to the start of its day; for a date+time widget no
widening occurs; the snapshot's bounds are exactly these effective bounds. -/
theorem c7_date_only_widening (env : Env) (now : DT) (props : Props) (st : PickerState) :
    (props.type = WidgetType.date →
      effectiveMaxDate now props = endOfDay (parseLimitDate now props.maxDate MAX_VALID_DATE) ∧
      effectiveMinDate now props = startOfDay (parseLimitDate now props.minDate MIN_VALID_DATE)) ∧
    (props.type = WidgetType.datetime →
      effectiveMaxDate now props = parseLimitDate now props.maxDate MAX_VALID_DATE ∧
      effectiveMinDate now props = parseLimitDate now props.minDate MIN_VALID_DATE) ∧
    (onPropsUpdated env now props st).state.maxDate = effectiveMaxDate now props ∧
    (onPropsUpdated env now props st).state.minDate = effectiveMinDate now props := by
  refine ⟨?_, ?_,
    (onPropsUpdated_base_fields env now props st).2.2.2.2.2.2,
    (onPropsUpdated_base_fields env now props st).2.2.2.2.2.1⟩
  · intro h
    simp [effectiveMaxDate, effectiveMinDate, h]
  · intro h
    simp [effectiveMaxDate, effectiveMinDate, h]

theorem c7_date_only_widening_witness :
    (effectiveMaxDate now0 cfg7d = endOfDay (parseLimitDate now0 cfg7d.maxDate MAX_VALID_DATE) ∧
      effectiveMinDate now0 cfg7d = startOfDay (parseLimitDate now0 cfg7d.minDate MIN_VALID_DATE)) ∧
    (effectiveMaxDate now0 cfg7t = parseLimitDate now0 cfg7t.maxDate MAX_VALID_DATE ∧
      effectiveMinDate now0 cfg7t = parseLimitDate now0 cfg7t.minDate MIN_VALID_DATE) :=
  ⟨(c7_date_only_widening env0 now0 cfg7d initState).1 rfl,
   (c7_date_only_widening env0 now0 cfg7t initState).2.1 rfl⟩

/-- C8: each limit resolves independently of the other: the "today" sentinel
resolves to start-of-day of the current moment, an absent bound to the global
minimum (for `minDate`) or maximum (for `maxDate`) representable date, and an
explicit value is clamped into the global range; with `minDate = "today"` and
`maxDate` absent the resolved bounds are start-of-day today and the global
maximum. -/
theorem c8_limit_resolution (now d dflt : DT)
    (h1 : dtLt (todayOf now) MIN_VALID_DATE = false)
    (h2 : dtLt MAX_VALID_DATE (todayOf now) = false) :
    parseLimitDate now DateLimit.today dflt = todayOf now ∧
    todayOf now = startOfDay now ∧
    parseLimitDate now DateLimit.absent MIN_VALID_DATE = MIN_VALID_DATE ∧
    parseLimitDate now DateLimit.absent MAX_VALID_DATE = MAX_VALID_DATE ∧
    parseLimitDate now (DateLimit.explicit d) dflt = clampDate d MIN_VALID_DATE MAX_VALID_DATE ∧
    effectiveMinDate now cfg8 = todayOf now ∧
    effectiveMaxDate now cfg8 = MAX_VALID_DATE ∧
    (∀ env st,
      (onPropsUpdated env now cfg8 st).state.minDate = todayOf now ∧
      (onPropsUpdated env now cfg8 st).state.maxDate = MAX_VALID_DATE) := by
  have ht : parseLimitDate now DateLimit.today dflt = todayOf now := by
    simp [parseLimitDate, clampDate, h1, h2]
  have hc1 : dtLt MIN_VALID_DATE MIN_VALID_DATE = false := by decide
  have hc2 : dtLt MAX_VALID_DATE MIN_VALID_DATE = false := by decide
  have hc3 : dtLt MAX_VALID_DATE MAX_VALID_DATE = false := by decide
  have hmin : parseLimitDate now DateLimit.absent MIN_VALID_DATE = MIN_VALID_DATE := by
    simp [parseLimitDate, clampDate, hc1, hc2]
  have hmax : parseLimitDate now DateLimit.absent MAX_VALID_DATE = MAX_VALID_DATE := by
    simp [parseLimitDate, clampDate, hc2, hc3]
  have hemin : effectiveMinDate now cfg8 = todayOf now := by
    simp only [effectiveMinDate, cfg8]
    simp [parseLimitDate, clampDate, h1, h2]
  have hemax : effectiveMaxDate now cfg8 = MAX_VALID_DATE := by
    simp only [effectiveMaxDate, cfg8]
    simp [parseLimitDate, clampDate, hc2, hc3]
  refine ⟨ht, rfl, hmin, hmax, rfl, hemin, hemax, ?_⟩
  intro env st
  have h := onPropsUpdated_base_fields env now cfg8 st
  exact ⟨by rw [h.2.2.2.2.2.1, hemin], by rw [h.2.2.2.2.2.2, hemax]⟩

theorem c8_limit_resolution_witness :
    parseLimitDate now0 DateLimit.today MIN_VALID_DATE = todayOf now0 ∧
    effectiveMinDate now0 cfg8 = todayOf now0 ∧
    effectiveMaxDate now0 cfg8 = MAX_VALID_DATE :=
  ⟨(c8_limit_resolution now0 now0 MIN_VALID_DATE (by decide) (by decide)).1,
   (c8_limit_resolution now0 now0 MIN_VALID_DATE (by decide) (by decide)).2.2.2.2.2.1,
   (c8_limit_resolution now0 now0 MIN_VALID_DATE (by decide) (by decide)).2.2.2.2.2.2.1⟩

/-- C9: in a produced snapshot, `values` has length 2 when `range` is true
and length 1 otherwise (for configurations whose value shape matches the
range flag), `values` is exactly the slotwise normalization of the supplied
values (never dropped or reordered), and a supplied value that fails the
validity check appears as the empty value at its original slot. -/
theorem c9_values_shape (env : Env) (now : DT) (props : Props) (st : PickerState)
    (hshape : valueShapeMatches props = true)
    (hdone : (onPropsUpdated env now props st).error = none) :
    ((onPropsUpdated env now props st).state.values.length = if props.range then 2 else 1) ∧
    (onPropsUpdated env now props st).state.values = (ensureArray props.value).map normalizeSlot ∧
    (∀ (i : Nat) (r : RawDT),
      (ensureArray props.value)[i]? = some (some r) → r.isValid = false →
      (onPropsUpdated env now props st).state.values[i]? = some none) := by
  have hv := (onPropsUpdated_base_fields env now props st).1
  refine ⟨?_, hv, ?_⟩
  · rw [hv]
    cases hval : props.value <;> cases hr : props.range <;>
      simp [valueShapeMatches, hval, hr] at hshape ⊢ <;> simp [ensureArray]
  · intro i r hi hinv
    rw [hv, List.getElem?_map, hi]
    simp [normalizeSlot, hinv]

theorem c9_values_shape_witness :
    (onPropsUpdated env0 now0 cfg9 initState).state.values.length
        = (if cfg9.range then 2 else 1) ∧
    (onPropsUpdated env0 now0 cfg9 initState).state.values
        = (ensureArray cfg9.value).map normalizeSlot :=
  ⟨(c9_values_shape env0 now0 cfg9 initState (by decide) (by decide)).1,
   (c9_values_shape env0 now0 cfg9 initState (by decide) (by decide)).2.1⟩

/-- C10: for `rounding = 0` the modulo-by-zero filter keeps every minute:
`availableMinutes` is all of `MINUTES` (the full 0-59 list), identical to the
`rounding = 1` result, while the full seconds list is exposed. -/
theorem c10_rounding_zero_minutes :
    availableMinutes 0 = MINUTES ∧
    (availableMinutes 0).map Prod.fst = List.range 60 ∧
    availableMinutes 0 = availableMinutes 1 ∧
    availableSeconds 0 = SECONDS := by
  refine ⟨by decide, by decide, by decide, by decide⟩
